import Mathlib

/-!
# DepthTexture (UtinniCore/swg/graphics/depth_texture.cpp)

A shallow embedding of `directX::DepthTexture`.  Pointers are natural numbers
with `0` standing for `nullptr`.  Every call that the class makes on the
Direct3D device, on a COM object or on the NVAPI vendor extension is recorded,
in program order, in a list of `Call`s returned next to the new object state.
Values that the outside world writes back through an out-parameter (the texture
created by `CreateTexture`, the surface returned by `GetDepthStencilSurface`,
the status of `NvAPI_Initialize`) are arguments of the embedded functions.

The device pointer handed to the methods is taken to be a live device; it is
not part of the recorded calls.
-/

namespace directX

/-! ## Constants of the Direct3D 9 and NVAPI headers, kept symbolic -/

/-- Status returned by `NvAPI_Initialize`: `NVAPI_OK` or any other status. -/
inductive NvAPI_Status where
  | NVAPI_OK
  | NVAPI_ERROR
  deriving DecidableEq, Repr

/-- Render states touched by the file. -/
inductive D3DRENDERSTATETYPE where
  | D3DRS_ZENABLE
  | D3DRS_ZWRITEENABLE
  | D3DRS_COLORWRITEENABLE
  | D3DRS_POINTSIZE
  deriving DecidableEq, Repr

/-- Texture formats: `FOURCC_INTZ` is `MAKEFOURCC('I','N','T','Z')`. -/
inductive D3DFORMAT where
  | FOURCC_INTZ
  deriving DecidableEq, Repr

/-- Usage flags passed to `CreateTexture`. -/
inductive D3DUSAGE where
  | D3DUSAGE_DEPTHSTENCIL
  deriving DecidableEq, Repr

/-- Memory pools passed to `CreateTexture`. -/
inductive D3DPOOL where
  | D3DPOOL_DEFAULT
  deriving DecidableEq, Repr

/-- Flexible vertex formats passed to `SetFVF`. -/
inductive D3DFVF where
  | D3DFVF_XYZ
  deriving DecidableEq, Repr

/-- Primitive types passed to `DrawPrimitiveUP`. -/
inductive D3DPRIMITIVETYPE where
  | D3DPT_POINTLIST
  deriving DecidableEq, Repr

/-- Filters passed to `NvAPI_D3D9_StretchRectEx`. -/
inductive D3DTEXTUREFILTERTYPE where
  | D3DTEXF_NONE
  deriving DecidableEq, Repr

/-- The `RESZ_CODE` of line 35. -/
def RESZ_CODE : Nat := 0x7fa05000

/-- The Windows `FALSE`. -/
def FALSE : Nat := 0

/-- The Windows `TRUE`. -/
def TRUE : Nat := 1

/-! ## Resources and recorded calls -/

/-- An `IDirect3DResource9*` handed to the vendor extension: the owned texture
or a depth-stencil surface. -/
inductive Resource where
  | texture (p : Nat)
  | surface (p : Nat)
  deriving DecidableEq, Repr

/-- The pointer value of a resource. -/
def Resource.ptr : Resource → Nat
  | .texture p => p
  | .surface p => p

/-- One call made by the class on the device, on a COM object, or on NVAPI.
`CreateTexture` carries what the device wrote to `&pTexture` (`none`: nothing
written); `GetDepthStencilSurface` carries the value of `pDSS` after the call;
`DrawPrimitiveUP` draws from the dummy point `(0, 0, 0)` with stride
`sizeof(D3DXVECTOR3)`; the rectangles of `NvAPI_D3D9_StretchRectEx` are both
`nullptr`. -/
inductive Call where
  | CreateTexture (Width Height : Int) (Levels : Nat) (Usage : D3DUSAGE)
      (Format : D3DFORMAT) (Pool : D3DPOOL) (ppTexture : Option Nat)
  | SetVertexShader (pShader : Nat)
  | SetPixelShader (pShader : Nat)
  | SetFVF (FVF : D3DFVF)
  | SetTexture (Stage : Nat) (pTexture : Nat)
  | SetRenderState (State : D3DRENDERSTATETYPE) (Value : Nat)
  | DrawPrimitiveUP (PrimitiveType : D3DPRIMITIVETYPE) (PrimitiveCount : Nat)
  | GetDepthStencilSurface (pDSS : Nat)
  | TextureRelease (pTexture : Nat)
  | SurfaceRelease (pSurface : Nat)
  | NvAPI_D3D9_RegisterResource (pResource : Resource)
  | NvAPI_D3D9_UnregisterResource (pResource : Resource)
  | NvAPI_D3D9_StretchRectEx (pSource : Nat) (pDest : Nat)
      (Filter : D3DTEXTUREFILTERTYPE)
  deriving DecidableEq, Repr

/-! ## The class -/

/-- The data members of `DepthTexture`. -/
structure DepthTexture where
  pTexture : Nat
  m_isNVAPI : Bool
  m_isRESZ : Bool
  m_isSupported : Bool
  pRegisteredDSS : Nat
  deriving DecidableEq, Repr

/-- The constructor `DepthTexture::DepthTexture` (lines 39-52); `status` is what `NvAPI_Initialize()`
returned. -/
def DepthTexture.construct (status : NvAPI_Status) : DepthTexture :=
  let m_isNVAPI := if status = NvAPI_Status.NVAPI_OK then true else false
  let m_isRESZ := !m_isNVAPI
  { pTexture := 0
    m_isNVAPI := m_isNVAPI
    m_isRESZ := m_isRESZ
    m_isSupported := m_isNVAPI || m_isRESZ
    pRegisteredDSS := 0 }

/-- The method `createTexture` (lines 55-72); `created` is what the device
wrote to `&pTexture` (`none`: the member keeps its value). -/
def DepthTexture.createTexture (self : DepthTexture) (width height : Int)
    (created : Option Nat) : DepthTexture × List Call :=
  if self.m_isSupported then
    let pTexture := match created with
      | some t => t
      | none => self.pTexture
    let self1 := { self with pTexture := pTexture }
    let calls := [Call.CreateTexture width height 1 D3DUSAGE.D3DUSAGE_DEPTHSTENCIL
      D3DFORMAT.FOURCC_INTZ D3DPOOL.D3DPOOL_DEFAULT created]
    if self.m_isNVAPI then
      (self1, calls ++ [Call.NvAPI_D3D9_RegisterResource (Resource.texture pTexture)])
    else
      (self1, calls)
  else
    (self, [])

/-- The first block of `release` (lines 76-87). -/
def DepthTexture.releaseTexture (self : DepthTexture) : DepthTexture × List Call :=
  if self.pTexture ≠ 0 then
    let calls1 :=
      if self.m_isNVAPI then
        [Call.NvAPI_D3D9_UnregisterResource (Resource.texture self.pTexture)]
      else []
    if self.pTexture ≠ 0 then
      ({ self with pTexture := 0 }, calls1 ++ [Call.TextureRelease self.pTexture])
    else
      (self, calls1)
  else
    (self, [])

/-- The second block of `release` (lines 89-100). -/
def DepthTexture.releaseDSS (self : DepthTexture) : DepthTexture × List Call :=
  if self.pRegisteredDSS ≠ 0 then
    let calls1 :=
      if self.m_isNVAPI then
        [Call.NvAPI_D3D9_UnregisterResource (Resource.surface self.pRegisteredDSS)]
      else []
    if self.pRegisteredDSS ≠ 0 then
      ({ self with pRegisteredDSS := 0 }, calls1 ++ [Call.SurfaceRelease self.pRegisteredDSS])
    else
      (self, calls1)
  else
    (self, [])

/-- The method `release` (lines 74-101). -/
def DepthTexture.release (self : DepthTexture) : DepthTexture × List Call :=
  let r1 := self.releaseTexture
  let r2 := r1.1.releaseDSS
  (r2.1, r1.2 ++ r2.2)

/-- The destructor `DepthTexture::~DepthTexture` (lines 104-107). -/
def DepthTexture.destroy (self : DepthTexture) : DepthTexture × List Call :=
  self.release

/-- The free function `resolveDepthWithResz` (lines 109-137). -/
def resolveDepthWithResz (pTexture : Nat) : List Call :=
  [ Call.SetVertexShader 0,
    Call.SetPixelShader 0,
    Call.SetFVF D3DFVF.D3DFVF_XYZ,
    Call.SetTexture 0 pTexture,
    Call.SetRenderState D3DRENDERSTATETYPE.D3DRS_ZENABLE FALSE,
    Call.SetRenderState D3DRENDERSTATETYPE.D3DRS_ZWRITEENABLE FALSE,
    Call.SetRenderState D3DRENDERSTATETYPE.D3DRS_COLORWRITEENABLE 0,
    Call.DrawPrimitiveUP D3DPRIMITIVETYPE.D3DPT_POINTLIST 1,
    Call.SetRenderState D3DRENDERSTATETYPE.D3DRS_ZWRITEENABLE TRUE,
    Call.SetRenderState D3DRENDERSTATETYPE.D3DRS_ZENABLE TRUE,
    Call.SetRenderState D3DRENDERSTATETYPE.D3DRS_COLORWRITEENABLE 0x0F,
    Call.SetRenderState D3DRENDERSTATETYPE.D3DRS_POINTSIZE RESZ_CODE,
    Call.SetRenderState D3DRENDERSTATETYPE.D3DRS_POINTSIZE 0 ]

/-- The re-registration block shared by both overloads (lines 144-154 and
169-179): when the tracked surface differs from `p`, register `p`, unregister
the tracked one if there is one, and track `p`. -/
def DepthTexture.reRegister (self : DepthTexture) (p : Nat) : DepthTexture × List Call :=
  if self.pRegisteredDSS ≠ p then
    let calls1 := [Call.NvAPI_D3D9_RegisterResource (Resource.surface p)]
    let calls2 :=
      if self.pRegisteredDSS ≠ 0 then
        [Call.NvAPI_D3D9_UnregisterResource (Resource.surface self.pRegisteredDSS)]
      else []
    ({ self with pRegisteredDSS := p }, calls1 ++ calls2)
  else
    (self, [])

/-- The overload `resolveDepth(pDevice, pSurface)` (lines 139-161).  It
dereferences no pointer of its own, so it always returns. -/
def DepthTexture.resolveDepth (self : DepthTexture) (pSurface : Nat) :
    Option (DepthTexture × List Call) :=
  if self.m_isNVAPI then
    let r := self.reRegister pSurface
    some (r.1, r.2 ++ [Call.NvAPI_D3D9_StretchRectEx pSurface r.1.pTexture
      D3DTEXTUREFILTERTYPE.D3DTEXF_NONE])
  else if self.m_isRESZ then
    some (self, resolveDepthWithResz self.pTexture)
  else
    some (self, [])

/-- The overload `resolveDepth(pDevice)` (lines 163-187); `pDSS` is the value
of the local `pDSS` after `GetDepthStencilSurface(&pDSS)` (`0` when the device
left the initial `nullptr`).  The final `pDSS->Release()` dereferences `pDSS`:
with a null `pDSS` the method does not return (`none`). -/
def DepthTexture.resolveDepthNoSurface (self : DepthTexture) (pDSS : Nat) :
    Option (DepthTexture × List Call) :=
  if self.m_isNVAPI then
    let r := self.reRegister pDSS
    let calls := [Call.GetDepthStencilSurface pDSS] ++ r.2 ++
      [Call.NvAPI_D3D9_StretchRectEx pDSS r.1.pTexture D3DTEXTUREFILTERTYPE.D3DTEXF_NONE]
    if pDSS ≠ 0 then
      some (r.1, calls ++ [Call.SurfaceRelease pDSS])
    else
      none
  else if self.m_isRESZ then
    some (self, resolveDepthWithResz self.pTexture)
  else
    some (self, [])

/-! ## Sequences of method calls -/

/-- One method call on the object, with what the outside world answers. -/
inductive Op where
  | createTexture (width height : Int) (created : Option Nat)
  | resolveDepth (pSurface : Nat)
  | resolveDepthNoSurface (pDSS : Nat)
  | release
  deriving DecidableEq, Repr

/-- Is the operation one of the two `resolveDepth` overloads? -/
def Op.isResolve : Op → Bool
  | .resolveDepth _ => true
  | .resolveDepthNoSurface _ => true
  | _ => false

/-- Run one method; `none` when it dereferences a null pointer. -/
def step (s : DepthTexture) : Op → Option (DepthTexture × List Call)
  | .createTexture w h created => some (s.createTexture w h created)
  | .resolveDepth p => s.resolveDepth p
  | .resolveDepthNoSurface d => s.resolveDepthNoSurface d
  | .release => some s.release

/-- Run a sequence of methods, concatenating the recorded calls. -/
def run (s : DepthTexture) : List Op → Option (DepthTexture × List Call)
  | [] => some (s, [])
  | op :: ops =>
    match step s op with
    | none => none
    | some (s1, c1) =>
      match run s1 ops with
      | none => none
      | some (s2, c2) => some (s2, c1 ++ c2)

/-- States reachable from construction by method calls that return. -/
inductive Reachable : DepthTexture → Prop where
  | init (status : NvAPI_Status) : Reachable (DepthTexture.construct status)
  | step {s s1 : DepthTexture} {c : List Call} (op : Op) :
      Reachable s → step s op = some (s1, c) → Reachable s1

/-! ## Observers on recorded calls -/

/-- Is the call one made on the NVAPI vendor extension? -/
def Call.isVendor : Call → Bool
  | .NvAPI_D3D9_RegisterResource _ => true
  | .NvAPI_D3D9_UnregisterResource _ => true
  | .NvAPI_D3D9_StretchRectEx _ _ _ => true
  | _ => false

/-- The device's point-size render state after one call, `v` being its value
before: only `SetRenderState(D3DRS_POINTSIZE, x)` changes it. -/
def pointSizeStep (v : Nat) : Call → Nat
  | .SetRenderState D3DRENDERSTATETYPE.D3DRS_POINTSIZE x => x
  | _ => v

/-- The device's point-size render state after a sequence of calls. -/
def pointSizeAfter (init : Nat) (calls : List Call) : Nat :=
  calls.foldl pointSizeStep init

/-- The last two calls of the fallback hack. -/
def reszTail : List Call :=
  [ Call.SetRenderState D3DRENDERSTATETYPE.D3DRS_POINTSIZE RESZ_CODE,
    Call.SetRenderState D3DRENDERSTATETYPE.D3DRS_POINTSIZE 0 ]

/-! ## Resource accounting on recorded calls -/

/-- Does the call create texture `t`, that is, is it a `CreateTexture` to whose
out-parameter the device wrote `t`? -/
def Call.creates (t : Nat) : Call → Bool
  | .CreateTexture _ _ _ _ _ _ (some t1) => decide (t1 = t)
  | _ => false

/-- How many times texture `t` was created. -/
def texturesCreated (t : Nat) (calls : List Call) : Nat :=
  calls.countP (Call.creates t)

/-- How many times `Release` was called on texture `t`. -/
def textureReleases (t : Nat) (calls : List Call) : Nat :=
  calls.count (Call.TextureRelease t)

/-- How many times resource `r` was registered with the vendor extension. -/
def registers (r : Resource) (calls : List Call) : Nat :=
  calls.count (Call.NvAPI_D3D9_RegisterResource r)

/-- How many times resource `r` was unregistered from the vendor extension. -/
def unregisters (r : Resource) (calls : List Call) : Nat :=
  calls.count (Call.NvAPI_D3D9_UnregisterResource r)

/-- How many references on surface `p` the class acquired: one for each
`GetDepthStencilSurface` that returned `p`. -/
def surfaceAcquires (p : Nat) (calls : List Call) : Nat :=
  calls.count (Call.GetDepthStencilSurface p)

/-- How many times `Release` was called on surface `p`. -/
def surfaceReleases (p : Nat) (calls : List Call) : Nat :=
  calls.count (Call.SurfaceRelease p)

/-- No leak in a complete record of calls: every created texture was released
as often as it was created, and every resource registered with the vendor
extension was unregistered as often as it was registered.  Null pointers name
no resource. -/
def NoLeak (calls : List Call) : Prop :=
  (∀ t : Nat, t ≠ 0 → texturesCreated t calls ≤ textureReleases t calls) ∧
  (∀ r : Resource, r.ptr ≠ 0 → registers r calls ≤ unregisters r calls)

/-- The whole life of an object: construction with the given probe status, the
methods of `ops`, destruction.  The result is every call recorded from the
first method to the destructor, `none` when a method dereferenced null. -/
def lifetime (status : NvAPI_Status) (ops : List Op) : Option (List Call) :=
  match run (DepthTexture.construct status) ops with
  | none => none
  | some (s, tr) => some (tr ++ s.destroy.2)

/-- Is `createTexture` called only while the owned texture is null, along the
run of `ops` from `s`? -/
def createOnNull (s : DepthTexture) : List Op → Bool
  | [] => true
  | op :: ops =>
    (match op with
      | .createTexture _ _ _ => decide (s.pTexture = 0)
      | _ => true) &&
    (match step s op with
      | some (s1, _) => createOnNull s1 ops
      | none => true)

/-- Does every query of the bound surface in `ops` return a non-null one? -/
def boundNonNull : List Op → Bool
  | [] => true
  | .resolveDepthNoSurface d :: ops => decide (d ≠ 0) && boundNonNull ops
  | _ :: ops => boundNonNull ops

/-- The balance kept by the methods between the object `s` and the calls
recorded so far: a non-null texture was created once more than released
exactly when it is the owned one, and a non-null resource was registered once
more than unregistered exactly when the vendor extension is used and it is the
owned texture or the tracked surface. -/
def Balanced (s : DepthTexture) (calls : List Call) : Prop :=
  (∀ t : Nat, t ≠ 0 →
    texturesCreated t calls =
      textureReleases t calls + (if s.pTexture = t then 1 else 0)) ∧
  (∀ t : Nat, t ≠ 0 →
    registers (Resource.texture t) calls =
      unregisters (Resource.texture t) calls +
        (if s.m_isNVAPI = true ∧ s.pTexture = t then 1 else 0)) ∧
  (∀ p : Nat, p ≠ 0 →
    registers (Resource.surface p) calls =
      unregisters (Resource.surface p) calls +
        (if s.m_isNVAPI = true ∧ s.pRegisteredDSS = p then 1 else 0))

/-! ## Example states -/

/-- A vendor-path object owning texture `5` and tracking surface `3`. -/
def vendorExample : DepthTexture :=
  { pTexture := 5, m_isNVAPI := true, m_isRESZ := false, m_isSupported := true,
    pRegisteredDSS := 3 }

/-- A fallback-path object owning texture `5`. -/
def fallbackExample : DepthTexture :=
  { pTexture := 5, m_isNVAPI := false, m_isRESZ := true, m_isSupported := true,
    pRegisteredDSS := 0 }

/-! ## Construction -/

/-- C6: whatever `NvAPI_Initialize` returns, the constructed object uses the
vendor extension exactly when the status is `NVAPI_OK`, uses the fallback hack
exactly when it is not, so exactly one of the two flags is set, and both
`pTexture` and `pRegisteredDSS` are null. -/
theorem C6_construction_flags (status : NvAPI_Status) :
    ((DepthTexture.construct status).m_isNVAPI = true ↔ status = NvAPI_Status.NVAPI_OK) ∧
    ((DepthTexture.construct status).m_isRESZ = false ↔ status = NvAPI_Status.NVAPI_OK) ∧
    ((DepthTexture.construct status).m_isNVAPI = false ↔ status ≠ NvAPI_Status.NVAPI_OK) ∧
    ((DepthTexture.construct status).m_isRESZ = true ↔ status ≠ NvAPI_Status.NVAPI_OK) ∧
    (DepthTexture.construct status).pTexture = 0 ∧
    (DepthTexture.construct status).pRegisteredDSS = 0 := by
  cases status <;> simp [DepthTexture.construct]

/-! ## The fallback hack -/

/-- C9: on the fallback path both overloads return, leave the object unchanged
and issue the same thirteen device calls in the order of `resolveDepthWithResz`,
whatever the surface argument or the bound surface; none is a vendor call. -/
theorem C9_fallback_sequence (s : DepthTexture) (pSurface pDSS : Nat)
    (hN : s.m_isNVAPI = false) (hR : s.m_isRESZ = true) :
    s.resolveDepth pSurface = some (s,
      [ Call.SetVertexShader 0,
        Call.SetPixelShader 0,
        Call.SetFVF D3DFVF.D3DFVF_XYZ,
        Call.SetTexture 0 s.pTexture,
        Call.SetRenderState D3DRENDERSTATETYPE.D3DRS_ZENABLE FALSE,
        Call.SetRenderState D3DRENDERSTATETYPE.D3DRS_ZWRITEENABLE FALSE,
        Call.SetRenderState D3DRENDERSTATETYPE.D3DRS_COLORWRITEENABLE 0,
        Call.DrawPrimitiveUP D3DPRIMITIVETYPE.D3DPT_POINTLIST 1,
        Call.SetRenderState D3DRENDERSTATETYPE.D3DRS_ZWRITEENABLE TRUE,
        Call.SetRenderState D3DRENDERSTATETYPE.D3DRS_ZENABLE TRUE,
        Call.SetRenderState D3DRENDERSTATETYPE.D3DRS_COLORWRITEENABLE 0x0F,
        Call.SetRenderState D3DRENDERSTATETYPE.D3DRS_POINTSIZE 0x7fa05000,
        Call.SetRenderState D3DRENDERSTATETYPE.D3DRS_POINTSIZE 0 ]) ∧
    s.resolveDepthNoSurface pDSS = s.resolveDepth pSurface ∧
    (∀ c ∈ resolveDepthWithResz s.pTexture, c.isVendor = false) ∧
    s.resolveDepth pSurface = some (s, resolveDepthWithResz s.pTexture) := by
  refine ⟨?_, ?_, ?_, ?_⟩
  · simp [DepthTexture.resolveDepth, hN, hR, resolveDepthWithResz, RESZ_CODE]
  · simp [DepthTexture.resolveDepth, DepthTexture.resolveDepthNoSurface, hN, hR]
  · intro c hc
    simp only [resolveDepthWithResz, List.mem_cons, List.mem_singleton] at hc
    rcases hc with h | h | h | h | h | h | h | h | h | h | h | h | h | h <;>
      first
        | (subst h; rfl)
        | (simp at h)
  · simp [DepthTexture.resolveDepth, hN, hR]

/-- Witness for C9: the object constructed after a failed probe. -/
theorem C9_fallback_sequence_witness :
    (DepthTexture.construct NvAPI_Status.NVAPI_ERROR).resolveDepthNoSurface 0 =
      (DepthTexture.construct NvAPI_Status.NVAPI_ERROR).resolveDepth 7 :=
  (C9_fallback_sequence (DepthTexture.construct NvAPI_Status.NVAPI_ERROR) 7 0 rfl rfl).2.1

/-! ## Re-registration -/

/-- C1: on the vendor path with no tracked surface, `resolveDepth(device, A)`
followed by `resolveDepth(device, B)` for two different non-null surfaces makes
the second call issue exactly: register `B`, unregister `A`, stretch-copy from
`B` into the owned texture, in this order; afterwards `B` is tracked. -/
theorem C1_reregistration (s : DepthTexture) (A B : Nat)
    (hN : s.m_isNVAPI = true) (h0 : s.pRegisteredDSS = 0)
    (hA : A ≠ 0) (_hB : B ≠ 0) (hAB : A ≠ B) :
    s.resolveDepth A = some ({ s with pRegisteredDSS := A },
      [ Call.NvAPI_D3D9_RegisterResource (Resource.surface A),
        Call.NvAPI_D3D9_StretchRectEx A s.pTexture D3DTEXTUREFILTERTYPE.D3DTEXF_NONE ]) ∧
    ({ s with pRegisteredDSS := A } : DepthTexture).resolveDepth B =
      some ({ s with pRegisteredDSS := B },
      [ Call.NvAPI_D3D9_RegisterResource (Resource.surface B),
        Call.NvAPI_D3D9_UnregisterResource (Resource.surface A),
        Call.NvAPI_D3D9_StretchRectEx B s.pTexture D3DTEXTUREFILTERTYPE.D3DTEXF_NONE ]) ∧
    run s [Op.resolveDepth A, Op.resolveDepth B] = some ({ s with pRegisteredDSS := B },
      [ Call.NvAPI_D3D9_RegisterResource (Resource.surface A),
        Call.NvAPI_D3D9_StretchRectEx A s.pTexture D3DTEXTUREFILTERTYPE.D3DTEXF_NONE,
        Call.NvAPI_D3D9_RegisterResource (Resource.surface B),
        Call.NvAPI_D3D9_UnregisterResource (Resource.surface A),
        Call.NvAPI_D3D9_StretchRectEx B s.pTexture D3DTEXTUREFILTERTYPE.D3DTEXF_NONE ]) := by
  have h1 : s.resolveDepth A = some ({ s with pRegisteredDSS := A },
      [ Call.NvAPI_D3D9_RegisterResource (Resource.surface A),
        Call.NvAPI_D3D9_StretchRectEx A s.pTexture D3DTEXTUREFILTERTYPE.D3DTEXF_NONE ]) := by
    have hA' : ¬ (0 = A) := fun h => hA h.symm
    simp [DepthTexture.resolveDepth, DepthTexture.reRegister, hN, h0, hA']
  have h2 : ({ s with pRegisteredDSS := A } : DepthTexture).resolveDepth B =
      some ({ s with pRegisteredDSS := B },
      [ Call.NvAPI_D3D9_RegisterResource (Resource.surface B),
        Call.NvAPI_D3D9_UnregisterResource (Resource.surface A),
        Call.NvAPI_D3D9_StretchRectEx B s.pTexture D3DTEXTUREFILTERTYPE.D3DTEXF_NONE ]) := by
    simp [DepthTexture.resolveDepth, DepthTexture.reRegister, hN, hA, hAB]
  refine ⟨h1, h2, ?_⟩
  simp [run, step, h1, h2]

/-- Witness for C1: the object constructed after a successful probe, surfaces
`1` and `2`. -/
theorem C1_reregistration_witness :
    ({ (DepthTexture.construct NvAPI_Status.NVAPI_OK) with pRegisteredDSS := 1 } :
        DepthTexture).resolveDepth 2 =
      some ({ (DepthTexture.construct NvAPI_Status.NVAPI_OK) with pRegisteredDSS := 2 },
      [ Call.NvAPI_D3D9_RegisterResource (Resource.surface 2),
        Call.NvAPI_D3D9_UnregisterResource (Resource.surface 1),
        Call.NvAPI_D3D9_StretchRectEx 2
          (DepthTexture.construct NvAPI_Status.NVAPI_OK).pTexture
          D3DTEXTUREFILTERTYPE.D3DTEXF_NONE ]) :=
  (C1_reregistration (DepthTexture.construct NvAPI_Status.NVAPI_OK) 1 2 rfl rfl
    (by decide) (by decide) (by decide)).2.1

/-! ## Release -/

/-- C2: a second `release()` right after a first one issues no call and changes
nothing, so two calls in a row end in the same state with the same recorded
calls as one; `release()` on a freshly constructed object issues no call. -/
theorem C2_release_idempotent (s : DepthTexture) :
    s.release.1.release = (s.release.1, []) ∧
    run s [Op.release, Op.release] = run s [Op.release] ∧
    run s [Op.release] = some s.release ∧
    ∀ status : NvAPI_Status,
      (DepthTexture.construct status).release = (DepthTexture.construct status, []) := by
  have h : s.release.1.release = (s.release.1, []) := by
    simp only [DepthTexture.release, DepthTexture.releaseTexture, DepthTexture.releaseDSS]
    by_cases h1 : s.pTexture = 0 <;> by_cases h2 : s.pRegisteredDSS = 0 <;>
      simp [h1, h2]
  refine ⟨h, ?_, ?_, ?_⟩
  · simp [run, step, h]
  · simp [run, step]
  · intro status
    cases status <;>
      simp [DepthTexture.construct, DepthTexture.release, DepthTexture.releaseTexture,
        DepthTexture.releaseDSS]

/-! ## Resolving after release -/

/-- After `release()` both pointers are null. -/
theorem release_nulls (s : DepthTexture) :
    s.release.1.pTexture = 0 ∧ s.release.1.pRegisteredDSS = 0 ∧
    s.release.1.m_isNVAPI = s.m_isNVAPI ∧ s.release.1.m_isRESZ = s.m_isRESZ ∧
    s.release.1.m_isSupported = s.m_isSupported := by
  simp only [DepthTexture.release, DepthTexture.releaseTexture, DepthTexture.releaseDSS]
  by_cases h1 : s.pTexture = 0 <;> by_cases h2 : s.pRegisteredDSS = 0 <;>
    simp [h1, h2]

/-- C3, as stated, fails: after `release()` on a vendor-path object,
`resolveDepth(device, 7)` registers surface `7`, issues the stretch-copy into
the null texture and starts tracking `7`; on a fallback-path object it issues
the thirteen calls of the hack with the null texture bound. -/
theorem C3_counterexample :
    (DepthTexture.construct NvAPI_Status.NVAPI_OK).release.1.resolveDepth 7 =
      some ({ pTexture := 0, m_isNVAPI := true, m_isRESZ := false, m_isSupported := true,
              pRegisteredDSS := 7 },
        [ Call.NvAPI_D3D9_RegisterResource (Resource.surface 7),
          Call.NvAPI_D3D9_StretchRectEx 7 0 D3DTEXTUREFILTERTYPE.D3DTEXF_NONE ]) ∧
    (DepthTexture.construct NvAPI_Status.NVAPI_OK).release.1.resolveDepth 7 ≠
      some ((DepthTexture.construct NvAPI_Status.NVAPI_OK).release.1, []) ∧
    (DepthTexture.construct NvAPI_Status.NVAPI_ERROR).release.1.resolveDepthNoSurface 7 =
      some ((DepthTexture.construct NvAPI_Status.NVAPI_ERROR).release.1,
        resolveDepthWithResz 0) ∧
    (DepthTexture.construct NvAPI_Status.NVAPI_ERROR).release.1.resolveDepthNoSurface 7 ≠
      some ((DepthTexture.construct NvAPI_Status.NVAPI_ERROR).release.1, []) := by
  decide

/-- C3 amended: after `release()` the texture and the tracked surface are null,
and a following `resolveDepth` is a no-op only when neither path is active.  On
the vendor path the surface overload registers the surface if it is non-null,
issues the stretch-copy into the null texture and tracks the surface; the
overload without a surface, when the device returns a non-null bound surface,
queries it, registers it, issues the stretch-copy into the null texture,
releases the queried reference and tracks the surface.  On the fallback path
either overload issues the calls of `resolveDepthWithResz` with the null
texture, which are not empty, and leaves the object unchanged. -/
theorem C3_resolve_after_release (s : DepthTexture) (pSurface pDSS : Nat)
    (hd : pDSS ≠ 0) :
    s.release.1.pTexture = 0 ∧ s.release.1.pRegisteredDSS = 0 ∧
    s.release.1.resolveDepth pSurface = some (
      if s.m_isNVAPI then
        ({ s.release.1 with pRegisteredDSS := pSurface },
          (if pSurface ≠ 0 then [Call.NvAPI_D3D9_RegisterResource (Resource.surface pSurface)]
            else []) ++
          [Call.NvAPI_D3D9_StretchRectEx pSurface 0 D3DTEXTUREFILTERTYPE.D3DTEXF_NONE])
      else if s.m_isRESZ then (s.release.1, resolveDepthWithResz 0)
      else (s.release.1, [])) ∧
    s.release.1.resolveDepthNoSurface pDSS = some (
      if s.m_isNVAPI then
        ({ s.release.1 with pRegisteredDSS := pDSS },
          [ Call.GetDepthStencilSurface pDSS,
            Call.NvAPI_D3D9_RegisterResource (Resource.surface pDSS),
            Call.NvAPI_D3D9_StretchRectEx pDSS 0 D3DTEXTUREFILTERTYPE.D3DTEXF_NONE,
            Call.SurfaceRelease pDSS ])
      else if s.m_isRESZ then (s.release.1, resolveDepthWithResz 0)
      else (s.release.1, [])) ∧
    resolveDepthWithResz 0 ≠ [] := by
  obtain ⟨ht, hr, hn, hz, _⟩ := release_nulls s
  have hd' : ¬ (0 = pDSS) := fun h => hd h.symm
  generalize s.release.1 = r at ht hr hn hz ⊢
  obtain ⟨t, n, z, sup, d⟩ := r
  simp only at ht hr hn hz
  subst ht hr hn hz
  refine ⟨rfl, rfl, ?_, ?_, by simp [resolveDepthWithResz]⟩
  · by_cases hp : pSurface = 0
    · subst hp
      cases hN : s.m_isNVAPI <;> cases hR : s.m_isRESZ <;>
        simp [DepthTexture.resolveDepth, DepthTexture.reRegister, hN, hR]
    · have hp' : ¬ (0 = pSurface) := fun h => hp h.symm
      cases hN : s.m_isNVAPI <;> cases hR : s.m_isRESZ <;>
        simp [DepthTexture.resolveDepth, DepthTexture.reRegister, hN, hR, hp, hp']
  · cases hN : s.m_isNVAPI <;> cases hR : s.m_isRESZ <;>
      simp [DepthTexture.resolveDepthNoSurface, DepthTexture.reRegister, hN, hR, hd, hd']

/-- Witness for the amended C3: the fallback-path example, surface argument `9`,
bound surface `3`. -/
theorem C3_resolve_after_release_witness :
    (3 : Nat) ≠ 0 ∧
    fallbackExample.release.1.resolveDepth 9 = some (
      if fallbackExample.m_isNVAPI then
        ({ fallbackExample.release.1 with pRegisteredDSS := 9 },
          (if (9 : Nat) ≠ 0 then [Call.NvAPI_D3D9_RegisterResource (Resource.surface 9)]
            else []) ++
          [Call.NvAPI_D3D9_StretchRectEx 9 0 D3DTEXTUREFILTERTYPE.D3DTEXF_NONE])
      else if fallbackExample.m_isRESZ then (fallbackExample.release.1, resolveDepthWithResz 0)
      else (fallbackExample.release.1, [])) :=
  ⟨by decide, (C3_resolve_after_release fallbackExample 9 3 (by decide)).2.2.1⟩

/-! ## Invariants of the flags and of the tracked surface -/

/-- No method writes the three flags. -/
theorem step_flags {s s1 : DepthTexture} {c : List Call} (op : Op)
    (h : step s op = some (s1, c)) :
    s1.m_isNVAPI = s.m_isNVAPI ∧ s1.m_isRESZ = s.m_isRESZ ∧
    s1.m_isSupported = s.m_isSupported := by
  cases op with
  | createTexture w ht created =>
    simp only [step, DepthTexture.createTexture, Option.some.injEq] at h
    split_ifs at h <;> (cases h; simp)
  | resolveDepth p =>
    simp only [step, DepthTexture.resolveDepth, DepthTexture.reRegister] at h
    split_ifs at h <;> (simp only [Option.some.injEq] at h; cases h; simp)
  | resolveDepthNoSurface d =>
    simp only [step, DepthTexture.resolveDepthNoSurface, DepthTexture.reRegister] at h
    split_ifs at h <;> (simp only [Option.some.injEq] at h; cases h; simp)
  | release =>
    simp only [step, Option.some.injEq] at h
    obtain ⟨_, _, hn, hz, hs⟩ := release_nulls s
    rw [h] at hn hz hs
    exact ⟨hn, hz, hs⟩

/-- A method run on an object that does not use the vendor extension leaves a
null tracked surface null. -/
theorem step_tracked_null {s s1 : DepthTexture} {c : List Call} (op : Op)
    (h : step s op = some (s1, c)) (hN : s.m_isNVAPI = false)
    (h0 : s.pRegisteredDSS = 0) : s1.pRegisteredDSS = 0 := by
  cases op with
  | createTexture w ht created =>
    simp only [step, DepthTexture.createTexture, Option.some.injEq] at h
    split_ifs at h <;> (cases h; simp [h0])
  | resolveDepth p =>
    simp only [step, DepthTexture.resolveDepth, hN, Bool.false_eq_true, if_false] at h
    split_ifs at h <;> (simp only [Option.some.injEq] at h; cases h; exact h0)
  | resolveDepthNoSurface d =>
    simp only [step, DepthTexture.resolveDepthNoSurface, hN, Bool.false_eq_true, if_false] at h
    split_ifs at h <;> (simp only [Option.some.injEq] at h; cases h; exact h0)
  | release =>
    simp only [step, Option.some.injEq] at h
    have hr := (release_nulls s).2.1
    rw [h] at hr
    exact hr

/-- What holds of every reachable state: the two path flags are complementary,
`m_isSupported` is their disjunction, and the tracked surface is null unless
the vendor extension is used. -/
theorem reachable_inv {s : DepthTexture} (h : Reachable s) :
    s.m_isRESZ = !s.m_isNVAPI ∧ s.m_isSupported = (s.m_isNVAPI || s.m_isRESZ) ∧
    (s.m_isNVAPI = false → s.pRegisteredDSS = 0) := by
  induction h with
  | init status => cases status <;> simp [DepthTexture.construct]
  | step op _ hstep ih =>
    obtain ⟨hn, hz, hs⟩ := step_flags op hstep
    refine ⟨?_, ?_, ?_⟩
    · rw [hn, hz]; exact ih.1
    · rw [hn, hz, hs]; exact ih.2.1
    · intro hN
      rw [hn] at hN
      exact step_tracked_null op hstep hN (ih.2.2 hN)

/-- C7: in every state reachable from construction the two path flags are
mutually exclusive and `m_isSupported` equals their disjunction, so it is true
exactly when at least one of them is. -/
theorem C7_flags_invariant (s : DepthTexture) (h : Reachable s) :
    (s.m_isNVAPI && s.m_isRESZ) = false ∧
    s.m_isSupported = (s.m_isNVAPI || s.m_isRESZ) ∧
    (s.m_isSupported = true ↔ (s.m_isNVAPI = true ∨ s.m_isRESZ = true)) := by
  obtain ⟨hz, hs, _⟩ := reachable_inv h
  refine ⟨?_, hs, ?_⟩
  · rw [hz]; cases s.m_isNVAPI <;> rfl
  · rw [hs]; simp

/-- The vendor-path example is reached by: construct, create texture `5`,
resolve from surface `3`. -/
theorem reachable_vendor_example : Reachable vendorExample :=
  Reachable.step (Op.resolveDepth 3)
    (Reachable.step (Op.createTexture 640 480 (some 5))
      (Reachable.init NvAPI_Status.NVAPI_OK) rfl)
    rfl

/-- The fallback-path example is reached by: construct, create texture `5`,
resolve with surface argument `3`. -/
theorem reachable_fallback_example : Reachable fallbackExample :=
  Reachable.step (Op.resolveDepth 3)
    (Reachable.step (Op.createTexture 640 480 (some 5))
      (Reachable.init NvAPI_Status.NVAPI_ERROR) rfl)
    rfl

/-- Witness for C7 at the reachable vendor-path example. -/
theorem C7_flags_invariant_witness :
    Reachable vendorExample ∧
    ((vendorExample.m_isNVAPI && vendorExample.m_isRESZ) = false ∧
      vendorExample.m_isSupported = (vendorExample.m_isNVAPI || vendorExample.m_isRESZ) ∧
      (vendorExample.m_isSupported = true ↔
        (vendorExample.m_isNVAPI = true ∨ vendorExample.m_isRESZ = true))) :=
  ⟨reachable_vendor_example, C7_flags_invariant vendorExample reachable_vendor_example⟩

/-- C8: in every state reachable from construction, on the fallback path the
tracked surface is null, and a non-null tracked surface occurs only when the
vendor extension is used. -/
theorem C8_tracked_surface_invariant (s : DepthTexture) (h : Reachable s) :
    (s.m_isRESZ = true → s.pRegisteredDSS = 0) ∧
    (s.m_isNVAPI = false → s.pRegisteredDSS = 0) ∧
    (s.pRegisteredDSS ≠ 0 → s.m_isNVAPI = true) := by
  obtain ⟨hz, _, h0⟩ := reachable_inv h
  refine ⟨?_, h0, ?_⟩
  · intro hR
    apply h0
    rw [hz] at hR
    simpa using hR
  · intro hne
    by_contra hN
    exact hne (h0 (by simpa using hN))

/-- Witness for C8 at the reachable fallback-path example. -/
theorem C8_tracked_surface_invariant_witness :
    Reachable fallbackExample ∧ fallbackExample.m_isRESZ = true ∧
    fallbackExample.pRegisteredDSS = 0 :=
  ⟨reachable_fallback_example, rfl,
    (C8_tracked_surface_invariant fallbackExample reachable_fallback_example).1 rfl⟩

/-! ## The point size after the fallback hack -/

/-- The hack ends with the two point-size calls. -/
theorem resolveDepthWithResz_tail (pTexture : Nat) :
    resolveDepthWithResz pTexture = (resolveDepthWithResz pTexture).take 11 ++ reszTail := by
  simp [resolveDepthWithResz, reszTail]

/-- On the fallback path either overload returns, changes nothing and issues
the hack. -/
theorem step_fallback (s : DepthTexture) (op : Op) (hN : s.m_isNVAPI = false)
    (hR : s.m_isRESZ = true) (hop : op.isResolve = true) :
    step s op = some (s, resolveDepthWithResz s.pTexture) := by
  cases op with
  | createTexture w ht created => simp [Op.isResolve] at hop
  | resolveDepth p => simp [step, DepthTexture.resolveDepth, hN, hR]
  | resolveDepthNoSurface d => simp [step, DepthTexture.resolveDepthNoSurface, hN, hR]
  | release => simp [Op.isResolve] at hop

/-- On the fallback path a non-empty sequence of resolves returns, changes
nothing, and its recorded calls end with the two point-size calls. -/
theorem run_fallback (s : DepthTexture) (hN : s.m_isNVAPI = false) (hR : s.m_isRESZ = true) :
    ∀ ops : List Op, (∀ op ∈ ops, op.isResolve = true) →
      ∃ tr, run s ops = some (s, tr) ∧ (ops ≠ [] → ∃ pre, tr = pre ++ reszTail) := by
  intro ops
  induction ops with
  | nil => intro _; exact ⟨[], rfl, fun h => absurd rfl h⟩
  | cons op rest ih =>
    intro hall
    obtain ⟨tr, hrun, htail⟩ := ih (fun o ho => hall o (List.mem_cons_of_mem _ ho))
    have hstep := step_fallback s op hN hR (hall op (List.mem_cons_self _ _))
    refine ⟨resolveDepthWithResz s.pTexture ++ tr, ?_, fun _ => ?_⟩
    · simp [run, hstep, hrun]
    · by_cases hrest : rest = []
      · subst hrest
        simp only [run, Option.some.injEq, Prod.mk.injEq, true_and] at hrun
        subst hrun
        exact ⟨(resolveDepthWithResz s.pTexture).take 11, by
          rw [List.append_nil]; exact resolveDepthWithResz_tail _⟩
      · obtain ⟨pre, hpre⟩ := htail hrest
        exact ⟨resolveDepthWithResz s.pTexture ++ pre, by rw [hpre, List.append_assoc]⟩

/-- After calls ending with the two point-size calls the point size is zero. -/
theorem pointSizeAfter_tail (init : Nat) (pre : List Call) :
    pointSizeAfter init (pre ++ reszTail) = 0 := by
  simp [pointSizeAfter, reszTail, List.foldl_append, pointSizeStep]

/-- C5: on the fallback path, for a sequence of `n ≥ 1` resolves (either
overload, any surface) every single resolve returns and issues calls whose last
two are `SetRenderState(D3DRS_POINTSIZE, RESZ_CODE)` then
`SetRenderState(D3DRS_POINTSIZE, 0)`, and after each of the first `k` calls,
`1 ≤ k ≤ n`, the run has returned with the same two calls last, so the
device's point size is zero whatever it was before. -/
theorem C5_point_size_reset (s : DepthTexture) (ops : List Op) (k init : Nat)
    (hN : s.m_isNVAPI = false) (hR : s.m_isRESZ = true)
    (hall : ∀ op ∈ ops, op.isResolve = true) (hk0 : 0 < k) (hk : k ≤ ops.length) :
    (∀ op ∈ ops, ∃ pre, step s op = some (s, pre ++
      [ Call.SetRenderState D3DRENDERSTATETYPE.D3DRS_POINTSIZE RESZ_CODE,
        Call.SetRenderState D3DRENDERSTATETYPE.D3DRS_POINTSIZE 0 ])) ∧
    (∃ pre, run s (ops.take k) = some (s, pre ++
      [ Call.SetRenderState D3DRENDERSTATETYPE.D3DRS_POINTSIZE RESZ_CODE,
        Call.SetRenderState D3DRENDERSTATETYPE.D3DRS_POINTSIZE 0 ]) ∧
      pointSizeAfter init (pre ++
        [ Call.SetRenderState D3DRENDERSTATETYPE.D3DRS_POINTSIZE RESZ_CODE,
          Call.SetRenderState D3DRENDERSTATETYPE.D3DRS_POINTSIZE 0 ]) = 0) := by
  refine ⟨fun op hop => ?_, ?_⟩
  · refine ⟨(resolveDepthWithResz s.pTexture).take 11, ?_⟩
    rw [step_fallback s op hN hR (hall op hop)]
    exact congrArg (fun l => some (s, l)) (resolveDepthWithResz_tail s.pTexture)
  · have hne : ops.take k ≠ [] := by
      intro h
      have hlen := congrArg List.length h
      rw [List.length_take, List.length_nil, Nat.min_eq_left hk] at hlen
      omega
    obtain ⟨tr, hrun, htail⟩ := run_fallback s hN hR (ops.take k)
      (fun o ho => hall o (List.mem_of_mem_take ho))
    obtain ⟨pre, hpre⟩ := htail hne
    subst hpre
    exact ⟨pre, hrun, pointSizeAfter_tail init pre⟩

/-- Witness for C5: three resolves on the object constructed after a failed
probe, observed after the second, the point size being `9` before. -/
theorem C5_point_size_reset_witness :
    ∃ pre, run (DepthTexture.construct NvAPI_Status.NVAPI_ERROR)
        ([Op.resolveDepth 3, Op.resolveDepthNoSurface 0, Op.resolveDepth 4].take 2) =
      some (DepthTexture.construct NvAPI_Status.NVAPI_ERROR, pre ++
        [ Call.SetRenderState D3DRENDERSTATETYPE.D3DRS_POINTSIZE RESZ_CODE,
          Call.SetRenderState D3DRENDERSTATETYPE.D3DRS_POINTSIZE 0 ]) ∧
      pointSizeAfter 9 (pre ++
        [ Call.SetRenderState D3DRENDERSTATETYPE.D3DRS_POINTSIZE RESZ_CODE,
          Call.SetRenderState D3DRENDERSTATETYPE.D3DRS_POINTSIZE 0 ]) = 0 :=
  (C5_point_size_reset (DepthTexture.construct NvAPI_Status.NVAPI_ERROR)
    [Op.resolveDepth 3, Op.resolveDepthNoSurface 0, Op.resolveDepth 4] 2 9 rfl rfl
    (by decide) (by decide) (by decide)).2

/-! ## Leaks -/

/-- C4, as stated, fails: creating texture `1` and then texture `2` on a
vendor-path object and destroying it releases and unregisters only texture `2`;
texture `1` was created and registered once, never released, never
unregistered. -/
theorem C4_counterexample :
    lifetime NvAPI_Status.NVAPI_OK
        [Op.createTexture 640 480 (some 1), Op.createTexture 640 480 (some 2)] =
      some
        [ Call.CreateTexture 640 480 1 D3DUSAGE.D3DUSAGE_DEPTHSTENCIL D3DFORMAT.FOURCC_INTZ
            D3DPOOL.D3DPOOL_DEFAULT (some 1),
          Call.NvAPI_D3D9_RegisterResource (Resource.texture 1),
          Call.CreateTexture 640 480 1 D3DUSAGE.D3DUSAGE_DEPTHSTENCIL D3DFORMAT.FOURCC_INTZ
            D3DPOOL.D3DPOOL_DEFAULT (some 2),
          Call.NvAPI_D3D9_RegisterResource (Resource.texture 2),
          Call.NvAPI_D3D9_UnregisterResource (Resource.texture 2),
          Call.TextureRelease 2 ] ∧
    ¬ NoLeak
        [ Call.CreateTexture 640 480 1 D3DUSAGE.D3DUSAGE_DEPTHSTENCIL D3DFORMAT.FOURCC_INTZ
            D3DPOOL.D3DPOOL_DEFAULT (some 1),
          Call.NvAPI_D3D9_RegisterResource (Resource.texture 1),
          Call.CreateTexture 640 480 1 D3DUSAGE.D3DUSAGE_DEPTHSTENCIL D3DFORMAT.FOURCC_INTZ
            D3DPOOL.D3DPOOL_DEFAULT (some 2),
          Call.NvAPI_D3D9_RegisterResource (Resource.texture 2),
          Call.NvAPI_D3D9_UnregisterResource (Resource.texture 2),
          Call.TextureRelease 2 ] := by
  refine ⟨by decide, fun h => ?_⟩
  have h1 := h.1 1 (by decide)
  revert h1
  decide

/-! ## Reference counts of surfaces -/

/-- C10 fails on the code: on a vendor-path object, `resolveDepth(device, 5)`
followed by `release()` calls `Release` on surface `5` although no reference on
it was ever acquired; and `resolveDepth(device)` with bound surface `5`
followed by `release()` acquires one reference on it and releases two. -/
theorem C10_over_release :
    run (DepthTexture.construct NvAPI_Status.NVAPI_OK) [Op.resolveDepth 5, Op.release] =
      some (DepthTexture.construct NvAPI_Status.NVAPI_OK,
        [ Call.NvAPI_D3D9_RegisterResource (Resource.surface 5),
          Call.NvAPI_D3D9_StretchRectEx 5 0 D3DTEXTUREFILTERTYPE.D3DTEXF_NONE,
          Call.NvAPI_D3D9_UnregisterResource (Resource.surface 5),
          Call.SurfaceRelease 5 ]) ∧
    surfaceAcquires 5
        [ Call.NvAPI_D3D9_RegisterResource (Resource.surface 5),
          Call.NvAPI_D3D9_StretchRectEx 5 0 D3DTEXTUREFILTERTYPE.D3DTEXF_NONE,
          Call.NvAPI_D3D9_UnregisterResource (Resource.surface 5),
          Call.SurfaceRelease 5 ] = 0 ∧
    surfaceReleases 5
        [ Call.NvAPI_D3D9_RegisterResource (Resource.surface 5),
          Call.NvAPI_D3D9_StretchRectEx 5 0 D3DTEXTUREFILTERTYPE.D3DTEXF_NONE,
          Call.NvAPI_D3D9_UnregisterResource (Resource.surface 5),
          Call.SurfaceRelease 5 ] = 1 ∧
    run (DepthTexture.construct NvAPI_Status.NVAPI_OK)
        [Op.resolveDepthNoSurface 5, Op.release] =
      some (DepthTexture.construct NvAPI_Status.NVAPI_OK,
        [ Call.GetDepthStencilSurface 5,
          Call.NvAPI_D3D9_RegisterResource (Resource.surface 5),
          Call.NvAPI_D3D9_StretchRectEx 5 0 D3DTEXTUREFILTERTYPE.D3DTEXF_NONE,
          Call.SurfaceRelease 5,
          Call.NvAPI_D3D9_UnregisterResource (Resource.surface 5),
          Call.SurfaceRelease 5 ]) ∧
    surfaceAcquires 5
        [ Call.GetDepthStencilSurface 5,
          Call.NvAPI_D3D9_RegisterResource (Resource.surface 5),
          Call.NvAPI_D3D9_StretchRectEx 5 0 D3DTEXTUREFILTERTYPE.D3DTEXF_NONE,
          Call.SurfaceRelease 5,
          Call.NvAPI_D3D9_UnregisterResource (Resource.surface 5),
          Call.SurfaceRelease 5 ] = 1 ∧
    surfaceReleases 5
        [ Call.GetDepthStencilSurface 5,
          Call.NvAPI_D3D9_RegisterResource (Resource.surface 5),
          Call.NvAPI_D3D9_StretchRectEx 5 0 D3DTEXTUREFILTERTYPE.D3DTEXF_NONE,
          Call.SurfaceRelease 5,
          Call.NvAPI_D3D9_UnregisterResource (Resource.surface 5),
          Call.SurfaceRelease 5 ] = 2 := by
  decide

/-! ## The balance of resources along a run -/

/-- What one method changes in the balance of created and released textures
and of registered and unregistered resources, the texture being null when
`createTexture` is called. -/
theorem step_balance {s s1 : DepthTexture} {c : List Call} (op : Op)
    (h : step s op = some (s1, c))
    (hg : ∀ w ht cr, op = Op.createTexture w ht cr → s.pTexture = 0) :
    (∀ t : Nat, t ≠ 0 →
      texturesCreated t c + (if s.pTexture = t then 1 else 0) =
        textureReleases t c + (if s1.pTexture = t then 1 else 0)) ∧
    (∀ t : Nat, t ≠ 0 →
      registers (Resource.texture t) c +
          (if s.m_isNVAPI = true ∧ s.pTexture = t then 1 else 0) =
        unregisters (Resource.texture t) c +
          (if s1.m_isNVAPI = true ∧ s1.pTexture = t then 1 else 0)) ∧
    (∀ p : Nat, p ≠ 0 →
      registers (Resource.surface p) c +
          (if s.m_isNVAPI = true ∧ s.pRegisteredDSS = p then 1 else 0) =
        unregisters (Resource.surface p) c +
          (if s1.m_isNVAPI = true ∧ s1.pRegisteredDSS = p then 1 else 0)) := by
  cases op with
  | createTexture w ht created =>
    have h0 := hg w ht created rfl
    simp only [step, DepthTexture.createTexture, Option.some.injEq] at h
    cases created with
    | none =>
      split_ifs at h <;> (cases h; refine ⟨?_, ?_, ?_⟩ <;> intro t htne <;>
        have htne' : ¬ (0 = t) := fun e => htne e.symm) <;>
        simp_all [texturesCreated, textureReleases, registers, unregisters, Call.creates,
          List.count_cons, List.countP_cons]
    | some t1 =>
      split_ifs at h <;> (cases h; refine ⟨?_, ?_, ?_⟩ <;> intro t htne <;>
        have htne' : ¬ (0 = t) := fun e => htne e.symm) <;>
        simp_all [texturesCreated, textureReleases, registers, unregisters, Call.creates,
          List.count_cons, List.countP_cons]
  | resolveDepth p =>
    simp only [step, DepthTexture.resolveDepth, DepthTexture.reRegister] at h
    split_ifs at h <;> (simp only [Option.some.injEq] at h; cases h) <;>
      refine ⟨?_, ?_, ?_⟩ <;> intro t htne <;>
      (have htne' : ¬ (0 = t) := fun e => htne e.symm
       simp_all [texturesCreated, textureReleases, registers, unregisters, Call.creates,
         List.count_cons, List.countP_cons, resolveDepthWithResz] <;>
       (split_ifs <;> simp_all))
  | resolveDepthNoSurface d =>
    simp only [step, DepthTexture.resolveDepthNoSurface, DepthTexture.reRegister] at h
    split_ifs at h <;> (simp only [Option.some.injEq] at h; cases h) <;>
      refine ⟨?_, ?_, ?_⟩ <;> intro t htne <;>
      (have htne' : ¬ (0 = t) := fun e => htne e.symm
       simp_all [texturesCreated, textureReleases, registers, unregisters, Call.creates,
         List.count_cons, List.countP_cons, resolveDepthWithResz] <;>
       (split_ifs <;> simp_all))
  | release =>
    simp only [step, DepthTexture.release, DepthTexture.releaseTexture,
      DepthTexture.releaseDSS, Option.some.injEq] at h
    split_ifs at h <;> cases h <;>
      refine ⟨?_, ?_, ?_⟩ <;> intro t htne <;>
      (have htne' : ¬ (0 = t) := fun e => htne e.symm
       simp_all [texturesCreated, textureReleases, registers, unregisters, Call.creates,
         List.count_cons, List.countP_cons])

/-- The balance is additive along recorded calls. -/
theorem balanced_append {s s1 : DepthTexture} {pre c : List Call} (op : Op)
    (hb : Balanced s pre) (h : step s op = some (s1, c))
    (hg : ∀ w ht cr, op = Op.createTexture w ht cr → s.pTexture = 0) :
    Balanced s1 (pre ++ c) := by
  obtain ⟨h1, h2, h3⟩ := step_balance op h hg
  obtain ⟨b1, b2, b3⟩ := hb
  refine ⟨fun t ht => ?_, fun t ht => ?_, fun p hp => ?_⟩
  · have e1 := h1 t ht
    have e2 := b1 t ht
    simp only [texturesCreated, textureReleases, List.countP_append, List.count_append] at *
    omega
  · have e1 := h2 t ht
    have e2 := b2 t ht
    simp only [registers, unregisters, List.count_append] at *
    omega
  · have e1 := h3 p hp
    have e2 := b3 p hp
    simp only [registers, unregisters, List.count_append] at *
    omega

/-- The balance holds along every run that returns and calls `createTexture`
only while the texture is null. -/
theorem run_balanced (ops : List Op) :
    ∀ (s s1 : DepthTexture) (pre tr : List Call), Balanced s pre →
      createOnNull s ops = true → run s ops = some (s1, tr) → Balanced s1 (pre ++ tr) := by
  induction ops with
  | nil =>
    intro s s1 pre tr hb _ hrun
    simp only [run, Option.some.injEq, Prod.mk.injEq] at hrun
    obtain ⟨rfl, rfl⟩ := hrun
    simpa using hb
  | cons op rest ih =>
    intro s s1 pre tr hb hc hrun
    simp only [run] at hrun
    cases hstep : step s op with
    | none => simp [hstep] at hrun
    | some r =>
      obtain ⟨s2, c2⟩ := r
      simp only [hstep] at hrun
      cases hrest : run s2 rest with
      | none => simp [hrest] at hrun
      | some r2 =>
        obtain ⟨s3, c3⟩ := r2
        simp only [hrest, Option.some.injEq, Prod.mk.injEq] at hrun
        obtain ⟨rfl, rfl⟩ := hrun
        simp only [createOnNull, hstep, Bool.and_eq_true] at hc
        have hg : ∀ w ht cr, op = Op.createTexture w ht cr → s.pTexture = 0 := by
          intro w ht cr e
          subst e
          simpa using hc.1
        have hb2 := balanced_append op hb hstep hg
        have := ih s2 s3 (pre ++ c2) c3 hb2 hc.2 hrest
        simpa [List.append_assoc] using this

/-- A run returns when every query of the bound surface returns a non-null
surface. -/
theorem run_returns (ops : List Op) :
    ∀ s : DepthTexture, boundNonNull ops = true → ∃ r, run s ops = some r := by
  induction ops with
  | nil => intro s _; exact ⟨(s, []), rfl⟩
  | cons op rest ih =>
    intro s hb
    have hrest : boundNonNull rest = true := by
      cases op <;> simp_all [boundNonNull]
    have hstep : ∃ r, step s op = some r := by
      cases op with
      | createTexture w ht cr => exact ⟨_, rfl⟩
      | resolveDepth p =>
        simp only [step, DepthTexture.resolveDepth]
        split_ifs <;> exact ⟨_, rfl⟩
      | resolveDepthNoSurface d =>
        have hd : d ≠ 0 := by
          simp only [boundNonNull, Bool.and_eq_true, decide_eq_true_eq] at hb
          exact hb.1
        simp only [step, DepthTexture.resolveDepthNoSurface]
        split_ifs <;> exact ⟨_, rfl⟩
      | release => exact ⟨_, rfl⟩
    obtain ⟨⟨s1, c1⟩, h1⟩ := hstep
    obtain ⟨⟨s2, c2⟩, h2⟩ := ih s1 hrest
    exact ⟨(s2, c1 ++ c2), by simp [run, h1, h2]⟩

/-- C4 amended: when `createTexture` is only called while the owned texture is
null, every life of an object that ends with its destruction leaks nothing:
each non-null texture was released as often as it was created and each
non-null resource was unregistered as often as it was registered, whether or
not `release()` was called before; and the life does reach the destructor when
each query of the bound surface returns a non-null surface. -/
theorem C4_no_leak_when_created_on_null (status : NvAPI_Status) (ops : List Op)
    (hcreate : createOnNull (DepthTexture.construct status) ops = true) :
    (∀ calls, lifetime status ops = some calls → NoLeak calls) ∧
    (boundNonNull ops = true → ∃ calls, lifetime status ops = some calls) := by
  have hinit : Balanced (DepthTexture.construct status) [] := by
    refine ⟨fun t ht => ?_, fun t ht => ?_, fun p hp => ?_⟩ <;>
      have hne : ¬ (0 = _) := fun e => (by assumption : _ ≠ 0) e.symm <;>
      cases status <;>
      simp [DepthTexture.construct, texturesCreated, textureReleases, registers,
        unregisters, hne]
  constructor
  · intro calls hlife
    simp only [lifetime] at hlife
    cases hrun : run (DepthTexture.construct status) ops with
    | none => simp [hrun] at hlife
    | some r =>
      obtain ⟨s, tr⟩ := r
      simp only [hrun, Option.some.injEq] at hlife
      subst hlife
      have hb := run_balanced ops _ s [] tr hinit hcreate hrun
      have hd : step s Op.release = some (s.release.1, s.destroy.2) := rfl
      have hfin := balanced_append Op.release hb hd (fun _ _ _ e => by cases e)
      obtain ⟨ht0, hr0, _⟩ := release_nulls s
      obtain ⟨f1, f2, f3⟩ := hfin
      simp only [List.nil_append] at f1 f2 f3
      refine ⟨fun t ht => ?_, fun r hr => ?_⟩
      · have e := f1 t ht
        have hne : ¬ (0 = t) := fun e => ht e.symm
        simp only [ht0, hne, if_false] at e
        omega
      · cases r with
        | texture t =>
          have ht : t ≠ 0 := hr
          have e := f2 t ht
          have hne : ¬ (0 = t) := fun e => ht e.symm
          simp only [ht0, hne, and_false, if_false] at e
          omega
        | surface p =>
          have hp : p ≠ 0 := hr
          have e := f3 p hp
          have hne : ¬ (0 = p) := fun e => hp e.symm
          simp only [hr0, hne, and_false, if_false] at e
          omega
  · intro hbound
    obtain ⟨⟨s, tr⟩, hrun⟩ := run_returns ops (DepthTexture.construct status) hbound
    exact ⟨tr ++ s.destroy.2, by simp [lifetime, hrun]⟩

/-- Witness for the amended C4: create texture `1`, resolve from surface `3`,
resolve from the bound surface `4`, release, create texture `2`, destroy. -/
theorem C4_no_leak_when_created_on_null_witness :
    createOnNull (DepthTexture.construct NvAPI_Status.NVAPI_OK)
        [Op.createTexture 640 480 (some 1), Op.resolveDepth 3, Op.resolveDepthNoSurface 4,
          Op.release, Op.createTexture 800 600 (some 2)] = true ∧
    ∃ calls, lifetime NvAPI_Status.NVAPI_OK
        [Op.createTexture 640 480 (some 1), Op.resolveDepth 3, Op.resolveDepthNoSurface 4,
          Op.release, Op.createTexture 800 600 (some 2)] = some calls ∧ NoLeak calls :=
  ⟨by decide,
    (C4_no_leak_when_created_on_null NvAPI_Status.NVAPI_OK
      [Op.createTexture 640 480 (some 1), Op.resolveDepth 3, Op.resolveDepthNoSurface 4,
        Op.release, Op.createTexture 800 600 (some 2)] (by decide)).2 (by decide) |>.elim
      (fun calls h => ⟨calls, h,
        (C4_no_leak_when_created_on_null NvAPI_Status.NVAPI_OK
          [Op.createTexture 640 480 (some 1), Op.resolveDepth 3, Op.resolveDepthNoSurface 4,
            Op.release, Op.createTexture 800 600 (some 2)] (by decide)).1 calls h⟩)⟩

end directX
